import Mathlib

/-!
Verification of the samsara-fleet-manager driver-synchronisation core.

The definitions below are a shallow embedding of the Python sources:
  - `samsara_api.py` (`SamsaraAPI._request` and its tenacity retry wrapper),
  - `driver_manager.py` (`DriverManager` row processing),
  - `headcount_loader.py` (`load_headcount_data`).
Machine time (timestamps), logging output and the HTTP transport are
abstracted: an attempt transport is a list of per-attempt outcomes, and the
remote service is an environment of functions that may fail.
-/

namespace SamsaraFleet

/-! ## Retry model (`samsara_api.py`, `SamsaraAPI._request`)

`_request` builds a `send` closure decorated with
`tenacity.retry(reraise=True, stop=stop_after_attempt(max_attempts),
wait=wait_exponential(multiplier=1, max=max_wait),
retry=retry_if_exception_type(requests.RequestException))`.
`max_attempts` is read from the environment with default 5, `max_wait`
with default 32.  Inside `send`, `requests.request` may raise a connection
error (a `RequestException`); a response with status `>= 500` or `== 429`
is turned into an `HTTPError` (also a `RequestException`); any other
response is returned.  After `send` returns, `response.raise_for_status()`
raises for any status in `[400, 600)` without any retry.

The transport is modelled as a list of per-attempt outcomes: what the
underlying `requests.request` call would do on the 1st, 2nd, ... attempt.
-/

/-- One outcome of the underlying HTTP transport for a single attempt:
either the connection fails (a `requests.ConnectionError`) or a response
with the given status code comes back. -/
inductive AttemptOutcome where
  | connErr : AttemptOutcome
  | resp : Nat → AttemptOutcome
  deriving Repr, DecidableEq

/-- Whether an attempt outcome makes `send` raise a `RequestException`
(and hence be retried by tenacity): a connection error, an HTTP 5xx, or
HTTP 429.  Mirrors the `if response.status_code >= 500 or
response.status_code == 429` guard inside `send`. -/
def retryableB : AttemptOutcome → Bool
  | .connErr => true
  | .resp s => 500 ≤ s || s == 429

/-- The tenacity-wrapped `send` loop.  `sendGo outcomes remaining` runs
`send` against successive transport outcomes with `remaining` attempts
still allowed (`stop_after_attempt`); it returns the result of the last
`send` call — `Except.error o` when the final attempt raised from outcome
`o` (tenacity `reraise=True` re-raises the original exception), or
`Except.ok s` for a returned response with status `s` — together with the
number of `requests.request` calls actually made.  An exhausted transport
list or a zero attempt budget is unreachable in the source (the budget is
at least 1 and the transport is total); those branches return a marker. -/
def sendGo : List AttemptOutcome → Nat → Except AttemptOutcome Nat × Nat
  | _, 0 => (Except.error AttemptOutcome.connErr, 0)
  | [], _ + 1 => (Except.error AttemptOutcome.connErr, 0)
  | o :: rest, n + 1 =>
    if retryableB o then
      if n = 0 then (Except.error o, 1)
      else
        let r := sendGo rest n
        (r.1, r.2 + 1)
    else
      match o with
      | AttemptOutcome.connErr => (Except.error o, 1)
      | AttemptOutcome.resp s => (Except.ok s, 1)

/-- Model of `SamsaraAPI._request`: run the retry-wrapped `send`, then
apply `response.raise_for_status()` — a status in `[400, 600)` on the
returned response raises immediately, outside the retry loop.  Returns
the final result together with the total number of HTTP requests made. -/
def requestModel (outcomes : List AttemptOutcome) (maxAttempts : Nat) :
    Except AttemptOutcome Nat × Nat :=
  match sendGo outcomes maxAttempts with
  | (Except.error e, c) => (Except.error e, c)
  | (Except.ok s, c) =>
    if 400 ≤ s ∧ s < 600 then (Except.error (AttemptOutcome.resp s), c)
    else (Except.ok s, c)

/-- Default attempt ceiling: `int(os.getenv("SAMSARA_RETRY_ATTEMPTS", "5"))`. -/
def defaultRetryAttempts : Nat := 5

theorem sendGo_all_retryable_then_success (bad : List AttemptOutcome)
    (s : Nat) (hbad : ∀ o ∈ bad, retryableB o = true)
    (hs : retryableB (AttemptOutcome.resp s) = false) :
    sendGo (bad ++ [AttemptOutcome.resp s]) (bad.length + 1) =
      (Except.ok s, bad.length + 1) := by
  induction bad with
  | nil => simp [sendGo, hs]
  | cons o rest ih =>
      have ho : retryableB o = true := hbad o (List.mem_cons_self o rest)
      have hrest : ∀ x ∈ rest, retryableB x = true := fun x hx =>
        hbad x (List.mem_cons_of_mem o hx)
      simp [sendGo, ho, ih hrest]

theorem sendGo_exhausted (pre : List AttemptOutcome) (o : AttemptOutcome)
    (rest : List AttemptOutcome)
    (hpre : ∀ x ∈ pre, retryableB x = true)
    (ho : retryableB o = true) :
    sendGo (pre ++ o :: rest) (pre.length + 1) =
      (Except.error o, pre.length + 1) := by
  induction pre with
  | nil => simp [sendGo, ho]
  | cons p ps ih =>
      have hp : retryableB p = true := hpre p (List.mem_cons_self p ps)
      have hps : ∀ x ∈ ps, retryableB x = true := fun x hx =>
        hpre x (List.mem_cons_of_mem p hx)
      simp [sendGo, hp, ih hps]

/-- **C3.**  Retry behaviour of `SamsaraAPI._request`:
(1) if each of the first `N - 1` of `N` allowed attempts fails with a
retryable outcome (connection error, HTTP 5xx or 429) and attempt `N`
returns a successful (sub-400) response, the client returns that result
and exactly `N` requests are made;
(2) a first response with a non-retryable 4xx status (`400 ≤ s < 500`,
`s ≠ 429`) makes exactly one request and raises immediately;
(3) if all `N` allowed attempts fail with retryable outcomes, the error
raised is exactly the outcome of attempt `N`, unchanged, after `N`
requests. -/
theorem request_retry_behavior :
    (∀ (bad : List AttemptOutcome) (s : Nat),
      (∀ o ∈ bad, retryableB o = true) → s < 400 →
      requestModel (bad ++ [AttemptOutcome.resp s]) (bad.length + 1) =
        (Except.ok s, bad.length + 1)) ∧
    (∀ (rest : List AttemptOutcome) (s n : Nat),
      400 ≤ s → s < 500 → s ≠ 429 →
      requestModel (AttemptOutcome.resp s :: rest) (n + 1) =
        (Except.error (AttemptOutcome.resp s), 1)) ∧
    (∀ (pre : List AttemptOutcome) (o : AttemptOutcome)
        (rest : List AttemptOutcome),
      (∀ x ∈ pre, retryableB x = true) → retryableB o = true →
      requestModel (pre ++ o :: rest) (pre.length + 1) =
        (Except.error o, pre.length + 1)) := by
  refine ⟨?_, ?_, ?_⟩
  · intro bad s hbad hs
    have hs400 : retryableB (AttemptOutcome.resp s) = false := by
      simp [retryableB]
      omega
    have h := sendGo_all_retryable_then_success bad s hbad hs400
    simp [requestModel, h]
    omega
  · intro rest s n h400 h500 h429
    have hs : retryableB (AttemptOutcome.resp s) = false := by
      simp [retryableB]
      omega
    simp [requestModel, sendGo, hs, h400]
    omega
  · intro pre o rest hpre ho
    have h := sendGo_exhausted pre o rest hpre ho
    simp [requestModel, h]

/-- Witness for C3 at concrete inputs: four retryable failures then a 200
with the default attempt ceiling of 5; an immediate HTTP 400; five
failures exhausting the budget with the last error (HTTP 503) surfaced. -/
theorem request_retry_behavior_witness :
    requestModel
        [AttemptOutcome.connErr, AttemptOutcome.resp 500,
         AttemptOutcome.resp 429, AttemptOutcome.connErr,
         AttemptOutcome.resp 200] defaultRetryAttempts =
      (Except.ok 200, 5) ∧
    requestModel [AttemptOutcome.resp 400] defaultRetryAttempts =
      (Except.error (AttemptOutcome.resp 400), 1) ∧
    requestModel
        [AttemptOutcome.connErr, AttemptOutcome.connErr,
         AttemptOutcome.resp 502, AttemptOutcome.connErr,
         AttemptOutcome.resp 503] defaultRetryAttempts =
      (Except.error (AttemptOutcome.resp 503), 5) := by
  refine ⟨?_, ?_, ?_⟩
  · exact request_retry_behavior.1
      [AttemptOutcome.connErr, AttemptOutcome.resp 500,
       AttemptOutcome.resp 429, AttemptOutcome.connErr] 200
      (by decide) (by decide)
  · exact request_retry_behavior.2.1 [] 400 4 (by decide) (by decide)
      (by decide)
  · exact request_retry_behavior.2.2
      [AttemptOutcome.connErr, AttemptOutcome.connErr,
       AttemptOutcome.resp 502, AttemptOutcome.connErr]
      (AttemptOutcome.resp 503) [] (by decide) (by decide)

/-! ## Driver manager model (`driver_manager.py`, class `DriverManager`)

`csv.DictReader` rows over a header validated by `main.validate_csv`
always carry all nine columns, with the empty string for a blank cell;
Python truthiness `row.get(k)` is therefore `k ≠ ""`.  A remote driver
record is modelled with its fields read by the manager; the dictionary
accesses `driver.get("tagIds", [])` and
`driver.get("driverActivationStatus")` are total here, with `[]` and `""`
standing for absent keys.  Timestamps and log output are dropped.  The
remote service is an `Env` of functions returning `Except`: an `error`
models a raised exception (e.g. an API failure after retry exhaustion).
Each helper returns the new state together with `some e` when it raises
`e` to the row boundary; the state carries a trace of API invocations. -/

/-- Python `str.lower()` (ASCII case folding, the relevant range for
usernames and action words), written over the character list so that it
evaluates by kernel reduction. -/
def pyLower (s : String) : String := String.mk (s.data.map Char.toLower)

/-- Python `str.strip()`: drop leading and trailing whitespace. -/
def pyStrip (s : String) : String :=
  String.mk
    (((s.data.dropWhile Char.isWhitespace).reverse.dropWhile
      Char.isWhitespace).reverse)

/-- A remote driver record, restricted to the fields the manager reads. -/
structure Driver where
  id : String
  name : String
  tagIds : List String
  driverActivationStatus : String
  deriving Repr, DecidableEq

/-- One `csv.DictReader` row of the change CSV. -/
structure Row where
  action : String
  payroll_id : String
  name : String
  username : String
  phone : String
  license_number : String
  license_state : String
  location_tag_id : String
  deactivation_reason : String
  deriving Repr, DecidableEq

/-- The `driver_data` dictionary built by `_create_driver_from_row`:
optional keys are present only when the row field is non-empty. -/
structure DriverData where
  name : String
  driverActivationStatus : String
  username : Option String
  phone : Option String
  licenseNumber : Option String
  licenseState : Option String
  payrollId : Option String
  tagIds : Option (List String)
  deriving Repr, DecidableEq

/-- The `update_data` dictionary built by `_update_driver_from_row`. -/
structure UpdateData where
  phone : Option String
  licenseNumber : Option String
  licenseState : Option String
  tagIds : Option (List String)
  deriving Repr, DecidableEq

/-- Python truthiness of the `update_data` dict (`if update_data:`). -/
def UpdateData.isNon_empty (u : UpdateData) : Bool :=
  u.phone.isSome || u.licenseNumber.isSome || u.licenseState.isSome ||
    u.tagIds.isSome

/-- `list(update_data.keys())` in dict insertion order. -/
def UpdateData.fieldsUpdated (u : UpdateData) : List String :=
  (if u.phone.isSome then ["phone"] else []) ++
  (if u.licenseNumber.isSome then ["licenseNumber"] else []) ++
  (if u.licenseState.isSome then ["licenseState"] else []) ++
  (if u.tagIds.isSome then ["tagIds"] else [])

/-- The partial-update payload of the headcount-merged update path (the
variant of `_update_driver_from_row` that `main.py` and the test suite
exercise via the `headcount_map` keyword; see `merged_update_data`).
`externalIdsEmail` is the email written into the external-id namespace
under "email". -/
structure MergedUpdateData where
  name : Option String
  phone : Option String
  licenseNumber : Option String
  licenseState : Option String
  externalIdsEmail : Option String
  tagIds : Option (List String)
  deriving Repr, DecidableEq

/-- Python truthiness of the merged update dict. -/
def MergedUpdateData.isNon_emptyM (u : MergedUpdateData) : Bool :=
  u.name.isSome || u.phone.isSome || u.licenseNumber.isSome ||
    u.licenseState.isSome || u.externalIdsEmail.isSome || u.tagIds.isSome

/-- One invocation of the `SamsaraAPI` collaborator, as traced by the
manager model.  `updateDriverMerged` is the update call of the
headcount-merged path. -/
inductive ApiCall where
  | findByExternalId : String → String → ApiCall
  | createDriver : DriverData → ApiCall
  | updateDriver : String → UpdateData → ApiCall
  | deactivateDriver : String → String → ApiCall
  | updateDriverMerged : String → MergedUpdateData → ApiCall
  deriving Repr, DecidableEq

/-- Behaviour of the remote service for one run: each operation either
returns a value or raises (models `requests` exceptions surfacing from
`SamsaraAPI`, including failures after retry exhaustion).  `findDriver`
is `find_driver_by_external_id "payrollId" value`. -/
structure Env where
  findDriver : String → Except String (Option Driver)
  createDriver : DriverData → Except String Driver
  updateDriver : String → UpdateData → Except String Unit
  deactivateDriver : String → String → Except String Unit

/-- Entry of the `created` bucket. -/
structure CreatedEntry where
  driver_id : String
  name : String
  payroll_id : String
  deriving Repr, DecidableEq

/-- Entry of the `updated` bucket. -/
structure UpdatedEntry where
  driver_id : String
  name : String
  payroll_id : String
  fields_updated : List String
  deriving Repr, DecidableEq

/-- Entry of the `deactivated` bucket. -/
structure DeactivatedEntry where
  driver_id : String
  name : String
  payroll_id : String
  reason : String
  deriving Repr, DecidableEq

/-- Entry of the `errors` bucket: the original row, the message, and the
`existing_driver_id` key present only on the duplicate-create path. -/
structure ErrorEntry where
  row : Row
  error : String
  existing_driver_id : Option String
  deriving Repr, DecidableEq

/-- The `operations_log` dictionary.  No code path in the source ever
appends to `skipped`, so no element type is determined by the code;
`Unit` is used as a placeholder. -/
structure OpsLog where
  created : List CreatedEntry
  updated : List UpdatedEntry
  deactivated : List DeactivatedEntry
  skipped : List Unit
  errors : List ErrorEntry
  deriving Repr, DecidableEq

/-- Total number of entries across the five buckets. -/
def logSize (l : OpsLog) : Nat :=
  l.created.length + l.updated.length + l.deactivated.length +
    l.skipped.length + l.errors.length

/-- Mutable state of a `DriverManager` run: the operations log, the
in-memory `_existing_usernames` set (as a list queried by membership),
the rows of the usernames CSV file, and the trace of API calls made. -/
structure DMState where
  log : OpsLog
  existing_usernames : List String
  usernamesFile : List String
  calls : List ApiCall
  deriving Repr, DecidableEq

/-- Trace one API invocation. -/
def addCall (s : DMState) (c : ApiCall) : DMState :=
  { s with calls := s.calls ++ [c] }

/-- Append an entry to the `errors` bucket. -/
def logError (s : DMState) (row : Row) (msg : String)
    (existing : Option String) : DMState :=
  { s with log := { s.log with errors :=
      s.log.errors ++ [⟨row, msg, existing⟩] } }

/-- Append an entry to the `created` bucket. -/
def logCreated (s : DMState) (e : CreatedEntry) : DMState :=
  { s with log := { s.log with created := s.log.created ++ [e] } }

/-- Append an entry to the `updated` bucket. -/
def logUpdated (s : DMState) (e : UpdatedEntry) : DMState :=
  { s with log := { s.log with updated := s.log.updated ++ [e] } }

/-- Append an entry to the `deactivated` bucket. -/
def logDeactivated (s : DMState) (e : DeactivatedEntry) : DMState :=
  { s with log := { s.log with deactivated := s.log.deactivated ++ [e] } }

/-- `_save_username_to_file` guarded by `if row.get("username")`: append
the raw username to the usernames file (best-effort in the source; the
write is modelled as succeeding). -/
def saveUsername (s : DMState) (row : Row) : DMState :=
  if row.username ≠ "" then
    { s with usernamesFile := s.usernamesFile ++ [row.username] }
  else s

/-- `_load_existing_usernames`: each file row is stripped and lowered;
empty results are not added. -/
def load_existing_usernames (fileRows : List String) : List String :=
  fileRows.foldl
    (fun acc r =>
      let u := pyLower (pyStrip r)
      if u ≠ "" then acc ++ [u] else acc) []

/-- State at the start of `process_driver_updates_from_csv`, given the
rows of the usernames file: empty log, usernames loaded, no calls yet. -/
def initState (fileRows : List String) : DMState :=
  { log := { created := [], updated := [], deactivated := [],
             skipped := [], errors := [] },
    existing_usernames := load_existing_usernames fileRows,
    usernamesFile := fileRows,
    calls := [] }

/-- Tail of `_create_driver_from_row` after the duplicate checks: call
`api.create_driver`, best-effort append the username to the usernames
file, then append a `created` entry. -/
def createStep (env : Env) (s : DMState) (row : Row) (data : DriverData) :
    DMState × Option String :=
  match env.createDriver data with
  | Except.error e => (addCall s (ApiCall.createDriver data), some e)
  | Except.ok created =>
    (logCreated
      (saveUsername (addCall s (ApiCall.createDriver data)) row)
      ⟨created.id, created.name, row.payroll_id⟩, none)

/-- The `driver_data` dict of `_create_driver_from_row` (lines 126–153):
each optional key is set exactly when the row field is non-empty. -/
def buildDriverData (row : Row) : DriverData :=
  { name := row.name,
    driverActivationStatus := "active",
    username := if row.username ≠ "" then some row.username else none,
    phone := if row.phone ≠ "" then some row.phone else none,
    licenseNumber := if row.license_number ≠ "" then
        some row.license_number else none,
    licenseState := if row.license_state ≠ "" then
        some row.license_state else none,
    payrollId := if row.payroll_id ≠ "" then
        some row.payroll_id else none,
    tagIds := if row.location_tag_id ≠ "" then
        some [row.location_tag_id] else none }

/-- `_create_driver_from_row`.  Order follows the source: build
`driver_data`, reject a username already in the in-memory set (error
entry, no API call, file untouched), then — when a payroll id is given —
look up an existing driver and reject a duplicate, and finally create. -/
def create_driver_from_row (env : Env) (s : DMState) (row : Row) :
    DMState × Option String :=
  if row.username ≠ "" ∧ pyLower (pyStrip row.username) ∈ s.existing_usernames
  then
    (logError s row ("Username " ++ row.username ++ " already exists")
      none, none)
  else
    if row.payroll_id ≠ "" then
      match env.findDriver row.payroll_id with
      | Except.error e =>
          (addCall s (ApiCall.findByExternalId "payrollId"
            row.payroll_id), some e)
      | Except.ok (some existing) =>
          (logError
            (addCall s (ApiCall.findByExternalId "payrollId"
              row.payroll_id))
            row "Driver already exists" (some existing.id), none)
      | Except.ok none =>
          createStep env
            (addCall s (ApiCall.findByExternalId "payrollId"
              row.payroll_id))
            row (buildDriverData row)
    else createStep env s row (buildDriverData row)

/-- Lines 204–206 of the source: `current_tags = driver.get("tagIds",
[])`, append the row tag only when not already present. -/
def appendTagIfAbsent (current : List String) (tag : String) :
    List String :=
  if tag ∈ current then current else current ++ [tag]

/-- The `update_data` dict of `_update_driver_from_row` (lines
193–207): each key is set exactly when the row field is non-empty, the
tag list merged additively into the existing tags. -/
def buildUpdateData (driver : Driver) (row : Row) : UpdateData :=
  { phone := if row.phone ≠ "" then some row.phone else none,
    licenseNumber := if row.license_number ≠ "" then
        some row.license_number else none,
    licenseState := if row.license_state ≠ "" then
        some row.license_state else none,
    tagIds := if row.location_tag_id ≠ "" then
        some (appendTagIfAbsent driver.tagIds row.location_tag_id)
      else none }

/-- `_update_driver_from_row`: require a payroll id, resolve the driver,
build the partial payload from non-empty row fields (tags merged
additively), and call `api.update_driver` only when the payload is
non-empty; an empty payload logs nothing (warning only in the source). -/
def update_driver_from_row (env : Env) (s : DMState) (row : Row) :
    DMState × Option String :=
  if row.payroll_id = "" then
    (s, some "Payroll ID required for updates")
  else
    match env.findDriver row.payroll_id with
    | Except.error e =>
        (addCall s (ApiCall.findByExternalId "payrollId" row.payroll_id),
          some e)
    | Except.ok none =>
        (addCall s (ApiCall.findByExternalId "payrollId" row.payroll_id),
          some ("Driver with payroll ID " ++ row.payroll_id ++
            " not found"))
    | Except.ok (some driver) =>
      if (buildUpdateData driver row).isNon_empty then
        match env.updateDriver driver.id (buildUpdateData driver row) with
        | Except.error e =>
            (addCall
              (addCall s (ApiCall.findByExternalId "payrollId"
                row.payroll_id))
              (ApiCall.updateDriver driver.id (buildUpdateData driver row)),
              some e)
        | Except.ok _ =>
            (logUpdated
              (addCall
                (addCall s (ApiCall.findByExternalId "payrollId"
                  row.payroll_id))
                (ApiCall.updateDriver driver.id
                  (buildUpdateData driver row)))
              ⟨driver.id, driver.name, row.payroll_id,
                (buildUpdateData driver row).fieldsUpdated⟩, none)
      else
        (addCall s (ApiCall.findByExternalId "payrollId" row.payroll_id),
          none)

/-- `_deactivate_driver_from_row`: require a payroll id, resolve the
driver; an already-deactivated driver is a silent return (warning only,
no log entry, no API call); otherwise deactivate and log.  The
`row.get("deactivation_reason", "No reason provided")` default never
fires for a `DictReader` row (the key is always present), so the reason
is the row value as-is. -/
def deactivate_driver_from_row (env : Env) (s : DMState) (row : Row) :
    DMState × Option String :=
  if row.payroll_id = "" then
    (s, some "Payroll ID required for deactivation")
  else
    match env.findDriver row.payroll_id with
    | Except.error e =>
        (addCall s (ApiCall.findByExternalId "payrollId" row.payroll_id),
          some e)
    | Except.ok none =>
        (addCall s (ApiCall.findByExternalId "payrollId" row.payroll_id),
          some ("Driver with payroll ID " ++ row.payroll_id ++
            " not found"))
    | Except.ok (some driver) =>
      if driver.driverActivationStatus = "deactivated" then
        (addCall s (ApiCall.findByExternalId "payrollId" row.payroll_id),
          none)
      else
        match env.deactivateDriver driver.id row.deactivation_reason with
        | Except.error e =>
            (addCall
              (addCall s (ApiCall.findByExternalId "payrollId"
                row.payroll_id))
              (ApiCall.deactivateDriver driver.id
                row.deactivation_reason), some e)
        | Except.ok _ =>
            (logDeactivated
              (addCall
                (addCall s (ApiCall.findByExternalId "payrollId"
                  row.payroll_id))
                (ApiCall.deactivateDriver driver.id
                  row.deactivation_reason))
              ⟨driver.id, driver.name, row.payroll_id,
                row.deactivation_reason⟩, none)

/-- Dispatch on `row.get("action", "").lower()`; an unknown action logs
an error entry directly (inside the `try`, but it raises nothing). -/
def rowDispatch (env : Env) (s : DMState) (row : Row) :
    DMState × Option String :=
  if pyLower row.action = "create" then create_driver_from_row env s row
  else if pyLower row.action = "update" then
    update_driver_from_row env s row
  else if pyLower row.action = "deactivate" then
    deactivate_driver_from_row env s row
  else
    (logError s row ("Unknown action " ++ pyLower row.action ++
      " for row") none, none)

/-- The loop body of `process_driver_updates_from_csv`: the `except`
clause at the row boundary turns a raised exception into an `errors`
entry carrying the row and the message. -/
def processRow (env : Env) (s : DMState) (row : Row) : DMState :=
  match rowDispatch env s row with
  | (s1, none) => s1
  | (s1, some e) => logError s1 row e none

/-- `process_driver_updates_from_csv` over the parsed rows (the final
`_save_operations_log` file write is dropped). -/
def processCsv (env : Env) (s : DMState) (rows : List Row) : DMState :=
  rows.foldl (processRow env) s

/-- `get_summary_stats`. -/
structure SummaryStats where
  drivers_created : Nat
  drivers_updated : Nat
  drivers_deactivated : Nat
  drivers_skipped : Nat
  errors : Nat
  deriving Repr, DecidableEq

/-- `get_summary_stats`: bucket lengths. -/
def get_summary_stats (s : DMState) : SummaryStats :=
  { drivers_created := s.log.created.length,
    drivers_updated := s.log.updated.length,
    drivers_deactivated := s.log.deactivated.length,
    drivers_skipped := s.log.skipped.length,
    errors := s.log.errors.length }

@[simp] theorem addCall_log (s : DMState) (c : ApiCall) :
    (addCall s c).log = s.log := rfl

@[simp] theorem addCall_existing (s : DMState) (c : ApiCall) :
    (addCall s c).existing_usernames = s.existing_usernames := rfl

@[simp] theorem addCall_file (s : DMState) (c : ApiCall) :
    (addCall s c).usernamesFile = s.usernamesFile := rfl

@[simp] theorem addCall_calls (s : DMState) (c : ApiCall) :
    (addCall s c).calls = s.calls ++ [c] := rfl

@[simp] theorem saveUsername_log (s : DMState) (row : Row) :
    (saveUsername s row).log = s.log := by
  unfold saveUsername
  split <;> rfl

@[simp] theorem saveUsername_existing (s : DMState) (row : Row) :
    (saveUsername s row).existing_usernames = s.existing_usernames := by
  unfold saveUsername
  split <;> rfl

@[simp] theorem saveUsername_calls (s : DMState) (row : Row) :
    (saveUsername s row).calls = s.calls := by
  unfold saveUsername
  split <;> rfl

@[simp] theorem logCreated_parts (s : DMState) (e : CreatedEntry) :
    (logCreated s e).log.created = s.log.created ++ [e] ∧
    (logCreated s e).log.updated = s.log.updated ∧
    (logCreated s e).log.deactivated = s.log.deactivated ∧
    (logCreated s e).log.skipped = s.log.skipped ∧
    (logCreated s e).log.errors = s.log.errors ∧
    (logCreated s e).existing_usernames = s.existing_usernames ∧
    (logCreated s e).usernamesFile = s.usernamesFile ∧
    (logCreated s e).calls = s.calls :=
  ⟨rfl, rfl, rfl, rfl, rfl, rfl, rfl, rfl⟩

@[simp] theorem logUpdated_parts (s : DMState) (e : UpdatedEntry) :
    (logUpdated s e).log.created = s.log.created ∧
    (logUpdated s e).log.updated = s.log.updated ++ [e] ∧
    (logUpdated s e).log.deactivated = s.log.deactivated ∧
    (logUpdated s e).log.skipped = s.log.skipped ∧
    (logUpdated s e).log.errors = s.log.errors ∧
    (logUpdated s e).existing_usernames = s.existing_usernames ∧
    (logUpdated s e).usernamesFile = s.usernamesFile ∧
    (logUpdated s e).calls = s.calls :=
  ⟨rfl, rfl, rfl, rfl, rfl, rfl, rfl, rfl⟩

@[simp] theorem logDeactivated_parts (s : DMState) (e : DeactivatedEntry) :
    (logDeactivated s e).log.created = s.log.created ∧
    (logDeactivated s e).log.updated = s.log.updated ∧
    (logDeactivated s e).log.deactivated = s.log.deactivated ++ [e] ∧
    (logDeactivated s e).log.skipped = s.log.skipped ∧
    (logDeactivated s e).log.errors = s.log.errors ∧
    (logDeactivated s e).existing_usernames = s.existing_usernames ∧
    (logDeactivated s e).usernamesFile = s.usernamesFile ∧
    (logDeactivated s e).calls = s.calls :=
  ⟨rfl, rfl, rfl, rfl, rfl, rfl, rfl, rfl⟩

@[simp] theorem logError_parts (s : DMState) (row : Row) (msg : String)
    (ex : Option String) :
    (logError s row msg ex).log.created = s.log.created ∧
    (logError s row msg ex).log.updated = s.log.updated ∧
    (logError s row msg ex).log.deactivated = s.log.deactivated ∧
    (logError s row msg ex).log.skipped = s.log.skipped ∧
    (logError s row msg ex).log.errors =
      s.log.errors ++ [⟨row, msg, ex⟩] ∧
    (logError s row msg ex).existing_usernames = s.existing_usernames ∧
    (logError s row msg ex).usernamesFile = s.usernamesFile ∧
    (logError s row msg ex).calls = s.calls :=
  ⟨rfl, rfl, rfl, rfl, rfl, rfl, rfl, rfl⟩

theorem createStep_skipped (env : Env) (s : DMState) (row : Row)
    (data : DriverData) :
    (createStep env s row data).1.log.skipped = s.log.skipped := by
  unfold createStep
  repeat' split
  all_goals first | rfl | simp

theorem create_skipped (env : Env) (s : DMState) (row : Row) :
    (create_driver_from_row env s row).1.log.skipped = s.log.skipped := by
  unfold create_driver_from_row
  repeat' split
  all_goals first | rfl | simp [createStep_skipped]

theorem update_skipped (env : Env) (s : DMState) (row : Row) :
    (update_driver_from_row env s row).1.log.skipped = s.log.skipped := by
  unfold update_driver_from_row
  repeat' split
  all_goals rfl

theorem deactivate_skipped (env : Env) (s : DMState) (row : Row) :
    (deactivate_driver_from_row env s row).1.log.skipped =
      s.log.skipped := by
  unfold deactivate_driver_from_row
  repeat' split
  all_goals rfl

theorem rowDispatch_skipped (env : Env) (s : DMState) (row : Row) :
    (rowDispatch env s row).1.log.skipped = s.log.skipped := by
  unfold rowDispatch
  repeat' split
  all_goals
    first
      | exact create_skipped env s row
      | exact update_skipped env s row
      | exact deactivate_skipped env s row
      | rfl

theorem processRow_skipped (env : Env) (s : DMState) (row : Row) :
    (processRow env s row).log.skipped = s.log.skipped := by
  have h := rowDispatch_skipped env s row
  unfold processRow
  rcases hd : rowDispatch env s row with ⟨s1, r⟩
  rw [hd] at h
  cases r <;> simp_all [logError]

theorem processCsv_skipped (env : Env) (rows : List Row) (s : DMState) :
    (processCsv env s rows).log.skipped = s.log.skipped := by
  induction rows generalizing s with
  | nil => rfl
  | cons r rs ih =>
      calc (processCsv env s (r :: rs)).log.skipped
          = (processCsv env (processRow env s r) rs).log.skipped := rfl
        _ = (processRow env s r).log.skipped := ih (processRow env s r)
        _ = s.log.skipped := processRow_skipped env s r

/-- **C10.**  The `skipped` bucket of the operations log is empty when
`process_driver_updates_from_csv` returns — no code path appends to it —
even though `get_summary_stats` reports a `drivers_skipped` count for it
(here necessarily 0). -/
theorem skipped_bucket_always_empty (env : Env) (fileRows : List String)
    (rows : List Row) :
    (processCsv env (initState fileRows) rows).log.skipped = [] ∧
    (get_summary_stats
      (processCsv env (initState fileRows) rows)).drivers_skipped = 0 := by
  have h := processCsv_skipped env rows (initState fileRows)
  have h0 : (initState fileRows).log.skipped = [] := rfl
  rw [h0] at h
  exact ⟨h, by simp [get_summary_stats, h]⟩

theorem create_raise_log (env : Env) (s : DMState) (row : Row)
    (e : String) :
    (create_driver_from_row env s row).2 = some e →
    (create_driver_from_row env s row).1.log = s.log := by
  unfold create_driver_from_row createStep
  repeat' split
  all_goals intro h
  all_goals first | rfl | simp_all

theorem update_raise_log (env : Env) (s : DMState) (row : Row)
    (e : String) :
    (update_driver_from_row env s row).2 = some e →
    (update_driver_from_row env s row).1.log = s.log := by
  unfold update_driver_from_row
  repeat' split
  all_goals intro h
  all_goals first | rfl | simp_all

theorem deactivate_raise_log (env : Env) (s : DMState) (row : Row)
    (e : String) :
    (deactivate_driver_from_row env s row).2 = some e →
    (deactivate_driver_from_row env s row).1.log = s.log := by
  unfold deactivate_driver_from_row
  repeat' split
  all_goals intro h
  all_goals first | rfl | simp_all

theorem rowDispatch_raise_log (env : Env) (s : DMState) (row : Row)
    (e : String) :
    (rowDispatch env s row).2 = some e →
    (rowDispatch env s row).1.log = s.log := by
  unfold rowDispatch
  repeat' split
  all_goals
    first
      | exact create_raise_log env s row e
      | exact update_raise_log env s row e
      | exact deactivate_raise_log env s row e
      | (intro h; simp_all)

/-- **C4.**  Exceptions are caught at the row boundary: whenever the
dispatched per-row helper raises `e` (validation failure, lookup
failure, or an API error surfaced after retry exhaustion, all modelled
by `Except.error` results of `Env`), the row produces exactly one
`errors` entry carrying the original row and the message, the other
buckets are untouched, and the batch continues with the remaining rows
(`processCsv` is the row-wise fold of `processRow`). -/
theorem row_failure_is_caught_and_batch_continues :
    (∀ (env : Env) (s : DMState) (row : Row) (e : String),
      (rowDispatch env s row).2 = some e →
      (processRow env s row).log.errors =
        s.log.errors ++ [⟨row, e, none⟩] ∧
      (processRow env s row).log.created = s.log.created ∧
      (processRow env s row).log.updated = s.log.updated ∧
      (processRow env s row).log.deactivated = s.log.deactivated) ∧
    (∀ (env : Env) (s : DMState) (row : Row) (rows : List Row),
      processCsv env s (row :: rows) =
        processCsv env (processRow env s row) rows) := by
  constructor
  · intro env s row e h
    have hlog := rowDispatch_raise_log env s row e h
    unfold processRow
    rcases hd : rowDispatch env s row with ⟨s1, r⟩
    rw [hd] at h hlog
    simp at h hlog
    subst h
    simp [logError, hlog]
  · intro env s row rows
    rfl

/-- Environment in which every driver lookup finds nothing and every
creation attempt fails with a remote error. -/
def envCreateFails : Env :=
  { findDriver := fun _ => Except.ok none,
    createDriver := fun _ => Except.error "HTTP 500",
    updateDriver := fun _ _ => Except.ok (),
    deactivateDriver := fun _ _ => Except.ok () }

/-- A create row used by concrete evaluations. -/
def rowCreateP9 : Row :=
  ⟨"create", "P9", "Jordan Lee", "jlee", "", "", "", "", ""⟩

/-- Witness for C4: a create row whose API creation fails with
`HTTP 500` yields exactly one error entry carrying the row and message,
and the fold equation holds on a concrete two-row batch. -/
theorem row_failure_is_caught_witness :
    (rowDispatch envCreateFails (initState []) rowCreateP9).2 =
      some "HTTP 500" ∧
    (processRow envCreateFails (initState []) rowCreateP9).log.errors =
      (initState []).log.errors ++ [⟨rowCreateP9, "HTTP 500", none⟩] ∧
    processCsv envCreateFails (initState []) [rowCreateP9, rowCreateP9] =
      processCsv envCreateFails
        (processRow envCreateFails (initState []) rowCreateP9)
        [rowCreateP9] := by
  refine ⟨by decide, ?_, ?_⟩
  · exact (row_failure_is_caught_and_batch_continues.1 envCreateFails
      (initState []) rowCreateP9 "HTTP 500" (by decide)).1
  · exact row_failure_is_caught_and_batch_continues.2 envCreateFails
      (initState []) rowCreateP9 [rowCreateP9]

/-- **C5.**  A create row whose username (stripped, lowercased) matches
an entry loaded from the username cache file — the in-memory set of a
state whose usernames were loaded from `fileRows` — appends exactly one
error entry, makes no API call at all (in particular the creation
operation is never invoked), and leaves the usernames file untouched. -/
theorem duplicate_username_create_rejected (env : Env) (s : DMState)
    (fileRows : List String) (row : Row)
    (hact : pyLower row.action = "create")
    (hu : row.username ≠ "")
    (hs : s.existing_usernames = load_existing_usernames fileRows)
    (hmem : pyLower (pyStrip row.username) ∈
      load_existing_usernames fileRows) :
    (processRow env s row).log.errors = s.log.errors ++
      [⟨row, "Username " ++ row.username ++ " already exists", none⟩] ∧
    (processRow env s row).calls = s.calls ∧
    (processRow env s row).usernamesFile = s.usernamesFile ∧
    (processRow env s row).log.created = s.log.created := by
  have hmem2 : pyLower (pyStrip row.username) ∈ s.existing_usernames :=
    hs ▸ hmem
  have hcond : row.username ≠ "" ∧
      pyLower (pyStrip row.username) ∈ s.existing_usernames :=
    ⟨hu, hmem2⟩
  unfold processRow rowDispatch create_driver_from_row
  rw [hact]
  simp [hcond, logError]

/-- Environment in which lookups find nothing and all mutations
succeed. -/
def envAllOk : Env :=
  { findDriver := fun _ => Except.ok none,
    createDriver := fun d =>
      Except.ok ⟨"id1", d.name, [], "active"⟩,
    updateDriver := fun _ _ => Except.ok (),
    deactivateDriver := fun _ _ => Except.ok () }

/-- A create row whose username collides (case-insensitively) with the
cached entry loaded from a file containing `Alice`. -/
def rowCreateAlice : Row :=
  ⟨"create", "", "Alice B", "ALICE", "", "", "", "", ""⟩

/-- Witness for C5 at concrete inputs: username `ALICE` against a cache
file containing `Alice`. -/
theorem duplicate_username_create_rejected_witness :
    pyLower (pyStrip "ALICE") ∈ load_existing_usernames ["Alice"] ∧
    (processRow envAllOk (initState ["Alice"]) rowCreateAlice).log.errors
      = (initState ["Alice"]).log.errors ++
        [⟨rowCreateAlice, "Username ALICE already exists", none⟩] ∧
    (processRow envAllOk (initState ["Alice"]) rowCreateAlice).calls =
      (initState ["Alice"]).calls :=
  ⟨by decide,
   (duplicate_username_create_rejected envAllOk (initState ["Alice"])
     ["Alice"] rowCreateAlice (by decide) (by decide) rfl (by decide)).1,
   (duplicate_username_create_rejected envAllOk (initState ["Alice"])
     ["Alice"] rowCreateAlice (by decide) (by decide) rfl
     (by decide)).2.1⟩

/-- **C6.**  For an update row with a non-empty `location_tag_id` whose
payroll id resolves to `driver`, the outbound payload's tag list is
`appendTagIfAbsent driver.tagIds row.location_tag_id` — the existing
tags with the row tag appended only if absent — and the update call
carrying exactly that payload is issued; the merge removes no existing
tag, is idempotent, leaves a list that already holds the tag unchanged,
and introduces no duplicate entry. -/
theorem update_tag_merge_additive_idempotent (env : Env) (s : DMState)
    (row : Row) (driver : Driver)
    (hpid : row.payroll_id ≠ "")
    (hfind : env.findDriver row.payroll_id = Except.ok (some driver))
    (htag : row.location_tag_id ≠ "") :
    (buildUpdateData driver row).tagIds =
      some (appendTagIfAbsent driver.tagIds row.location_tag_id) ∧
    (update_driver_from_row env s row).1.calls = s.calls ++
      [ApiCall.findByExternalId "payrollId" row.payroll_id,
       ApiCall.updateDriver driver.id (buildUpdateData driver row)] ∧
    (∀ t ∈ driver.tagIds,
      t ∈ appendTagIfAbsent driver.tagIds row.location_tag_id) ∧
    (∀ (l : List String) (t : String),
      appendTagIfAbsent (appendTagIfAbsent l t) t =
        appendTagIfAbsent l t) ∧
    (∀ (l : List String) (t : String), t ∈ l →
      appendTagIfAbsent l t = l) ∧
    (driver.tagIds.Nodup →
      (appendTagIfAbsent driver.tagIds row.location_tag_id).Nodup) := by
  have htags : (buildUpdateData driver row).tagIds =
      some (appendTagIfAbsent driver.tagIds row.location_tag_id) := by
    simp [buildUpdateData, htag]
  have hne : (buildUpdateData driver row).isNon_empty = true := by
    simp [UpdateData.isNon_empty, htags]
  refine ⟨htags, ?_, ?_, ?_, ?_, ?_⟩
  · unfold update_driver_from_row
    rw [if_neg (by simp [hpid]), hfind]
    simp only [hne, if_pos]
    rcases env.updateDriver driver.id (buildUpdateData driver row) with
      e | u <;> simp
  · intro t ht
    unfold appendTagIfAbsent
    split
    · exact ht
    · exact List.mem_append_left _ ht
  · intro l t
    unfold appendTagIfAbsent
    split
    · simp_all
    · simp_all
  · intro l t ht
    simp [appendTagIfAbsent, ht]
  · intro hnd
    unfold appendTagIfAbsent
    split
    · exact hnd
    · simpa using List.Nodup.append hnd (List.nodup_singleton _)
        (by simp_all)

/-- A driver already holding tags `L1` and `L2`. -/
def driverTagged : Driver := ⟨"d1", "Bob", ["L1", "L2"], "active"⟩

/-- Environment resolving payroll id `P1` to `driverTagged`. -/
def envFindsTagged : Env :=
  { findDriver := fun pid =>
      if pid = "P1" then Except.ok (some driverTagged)
      else Except.ok none,
    createDriver := fun d => Except.ok ⟨"id1", d.name, [], "active"⟩,
    updateDriver := fun _ _ => Except.ok (),
    deactivateDriver := fun _ _ => Except.ok () }

/-- An update row re-applying tag `L2` to `driverTagged`. -/
def rowUpdateL2 : Row := ⟨"update", "P1", "", "", "", "", "", "L2", ""⟩

/-- Witness for C6 at concrete inputs: re-applying tag `L2` to a driver
already holding `["L1", "L2"]` leaves the payload tag list unchanged
and duplicate-free. -/
theorem update_tag_merge_witness :
    (buildUpdateData driverTagged rowUpdateL2).tagIds =
      some ["L1", "L2"] ∧
    appendTagIfAbsent (appendTagIfAbsent ["L1", "L2"] "L2") "L2" =
      appendTagIfAbsent ["L1", "L2"] "L2" ∧
    (["L1", "L2"] : List String).Nodup ∧
    (appendTagIfAbsent ["L1", "L2"] "L2").Nodup := by
  have h := update_tag_merge_additive_idempotent envFindsTagged
    (initState []) rowUpdateL2 driverTagged (by decide) (by rfl)
    (by decide)
  refine ⟨?_, h.2.2.2.1 ["L1", "L2"] "L2", by decide,
    h.2.2.2.2.2 (by decide)⟩
  have := h.1
  simpa [appendTagIfAbsent] using this

theorem createStep_existing (env : Env) (s : DMState) (row : Row)
    (data : DriverData) :
    (createStep env s row data).1.existing_usernames =
      s.existing_usernames := by
  unfold createStep
  repeat' split
  all_goals first | rfl | simp

theorem create_existing (env : Env) (s : DMState) (row : Row) :
    (create_driver_from_row env s row).1.existing_usernames =
      s.existing_usernames := by
  unfold create_driver_from_row
  repeat' split
  all_goals first | rfl | simp [createStep_existing]

theorem update_existing (env : Env) (s : DMState) (row : Row) :
    (update_driver_from_row env s row).1.existing_usernames =
      s.existing_usernames := by
  unfold update_driver_from_row
  repeat' split
  all_goals rfl

theorem deactivate_existing (env : Env) (s : DMState) (row : Row) :
    (deactivate_driver_from_row env s row).1.existing_usernames =
      s.existing_usernames := by
  unfold deactivate_driver_from_row
  repeat' split
  all_goals rfl

theorem rowDispatch_existing (env : Env) (s : DMState) (row : Row) :
    (rowDispatch env s row).1.existing_usernames =
      s.existing_usernames := by
  unfold rowDispatch
  repeat' split
  all_goals
    first
      | exact create_existing env s row
      | exact update_existing env s row
      | exact deactivate_existing env s row
      | rfl

theorem processRow_existing (env : Env) (s : DMState) (row : Row) :
    (processRow env s row).existing_usernames = s.existing_usernames := by
  have h := rowDispatch_existing env s row
  unfold processRow
  rcases hd : rowDispatch env s row with ⟨s1, r⟩
  rw [hd] at h
  cases r <;> simp_all [logError]

/-- Whether an `ApiCall` is a `create_driver` invocation. -/
def isCreateCall : ApiCall → Bool
  | ApiCall.createDriver _ => true
  | _ => false

/-- Number of `create_driver` invocations in a call trace. -/
def countCreateCalls (cs : List ApiCall) : Nat := cs.countP isCreateCall

theorem processRow_fresh_create (env : Env) (s : DMState) (row : Row)
    (d : Driver)
    (hact : pyLower row.action = "create")
    (hu : row.username ≠ "")
    (hmem : pyLower (pyStrip row.username) ∉ s.existing_usernames)
    (hfind : ∀ pid, env.findDriver pid = Except.ok none)
    (hcreate : ∀ dd, env.createDriver dd = Except.ok d) :
    countCreateCalls (processRow env s row).calls =
      countCreateCalls s.calls + 1 := by
  have hnc : ¬ (row.username ≠ "" ∧
      pyLower (pyStrip row.username) ∈ s.existing_usernames) :=
    fun hc => hmem hc.2
  unfold processRow rowDispatch create_driver_from_row createStep
  rw [hact]
  by_cases hp : row.payroll_id = "" <;>
    simp [hnc, hmem, hp, hfind, hcreate, countCreateCalls, isCreateCall,
      List.countP_append, List.countP_cons, hu]

/-- **C9.**  Processing a row never changes the in-memory
`_existing_usernames` set (only the usernames file is appended on a
create); consequently two create rows in one batch bearing the same
fresh username both pass the uniqueness check and both invoke the
`create_driver` operation. -/
theorem username_not_cached_in_memory :
    (∀ (env : Env) (s : DMState) (row : Row),
      (processRow env s row).existing_usernames =
        s.existing_usernames) ∧
    (∀ (env : Env) (s : DMState) (row : Row) (d : Driver),
      pyLower row.action = "create" → row.username ≠ "" →
      pyLower (pyStrip row.username) ∉ s.existing_usernames →
      (∀ pid, env.findDriver pid = Except.ok none) →
      (∀ dd, env.createDriver dd = Except.ok d) →
      countCreateCalls (processCsv env s [row, row]).calls =
        countCreateCalls s.calls + 2) := by
  refine ⟨processRow_existing, ?_⟩
  intro env s row d hact hu hmem hfind hcreate
  have h1 := processRow_fresh_create env s row d hact hu hmem hfind
    hcreate
  have hpres := processRow_existing env s row
  have hmem2 : pyLower (pyStrip row.username) ∉
      (processRow env s row).existing_usernames := by
    rw [hpres]; exact hmem
  have h2 := processRow_fresh_create env (processRow env s row) row d
    hact hu hmem2 hfind hcreate
  calc countCreateCalls (processCsv env s [row, row]).calls
      = countCreateCalls
          (processRow env (processRow env s row) row).calls := rfl
    _ = countCreateCalls (processRow env s row).calls + 1 := h2
    _ = countCreateCalls s.calls + 1 + 1 := by rw [h1]
    _ = countCreateCalls s.calls + 2 := by omega

/-- Environment whose creation operation returns a fixed driver and
whose lookups find nothing. -/
def envConstCreate : Env :=
  { findDriver := fun _ => Except.ok none,
    createDriver := fun _ =>
      Except.ok ⟨"id1", "Jordan Lee", [], "active"⟩,
    updateDriver := fun _ _ => Except.ok (),
    deactivateDriver := fun _ _ => Except.ok () }

/-- Witness for C9 at concrete inputs: the same fresh-username create
row twice in one batch produces two `create_driver` calls. -/
theorem username_not_cached_in_memory_witness :
    (processRow envConstCreate (initState [])
        rowCreateP9).existing_usernames =
      (initState []).existing_usernames ∧
    countCreateCalls
        (processCsv envConstCreate (initState [])
          [rowCreateP9, rowCreateP9]).calls =
      countCreateCalls (initState []).calls + 2 :=
  ⟨username_not_cached_in_memory.1 envConstCreate (initState [])
      rowCreateP9,
   username_not_cached_in_memory.2 envConstCreate (initState [])
      rowCreateP9 ⟨"id1", "Jordan Lee", [], "active"⟩ (by decide)
      (by decide) (by decide) (fun _ => rfl) (fun _ => rfl)⟩

/-- The update-row paths that return without logging anything: the
driver resolves and the merged payload is empty (source line 222, a
warning only). -/
def updateSilent (env : Env) (row : Row) : Bool :=
  if row.payroll_id = "" then false
  else
    match env.findDriver row.payroll_id with
    | Except.ok (some driver) =>
        if (buildUpdateData driver row).isNon_empty then false else true
    | _ => false

/-- The deactivate-row path that returns without logging anything: the
driver resolves and is already deactivated (source lines 235–237). -/
def deactivateSilent (env : Env) (row : Row) : Bool :=
  if row.payroll_id = "" then false
  else
    match env.findDriver row.payroll_id with
    | Except.ok (some driver) =>
        if driver.driverActivationStatus = "deactivated" then true
        else false
    | _ => false

/-- A row that produces no log entry at all. -/
def rowSilent (env : Env) (row : Row) : Bool :=
  if pyLower row.action = "update" then updateSilent env row
  else if pyLower row.action = "deactivate" then deactivateSilent env row
  else false

theorem createStep_logSize (env : Env) (s : DMState) (row : Row)
    (data : DriverData) :
    logSize (createStep env s row data).1.log = logSize s.log +
      (if (createStep env s row data).2.isSome then 0 else 1) := by
  unfold createStep
  repeat' split
  all_goals (try simp_all [logSize])
  all_goals omega

theorem create_logSize (env : Env) (s : DMState) (row : Row) :
    logSize (create_driver_from_row env s row).1.log = logSize s.log +
      (if (create_driver_from_row env s row).2.isSome then 0
       else 1) := by
  unfold create_driver_from_row
  repeat' split
  all_goals (try rw [createStep_logSize])
  all_goals (try simp_all [logSize])
  all_goals omega

theorem update_logSize (env : Env) (s : DMState) (row : Row) :
    logSize (update_driver_from_row env s row).1.log = logSize s.log +
      (if (update_driver_from_row env s row).2.isSome then 0
       else if updateSilent env row then 0 else 1) := by
  unfold update_driver_from_row updateSilent
  repeat' split
  all_goals (try simp_all [logSize])
  all_goals omega

theorem deactivate_logSize (env : Env) (s : DMState) (row : Row) :
    logSize (deactivate_driver_from_row env s row).1.log =
      logSize s.log +
      (if (deactivate_driver_from_row env s row).2.isSome then 0
       else if deactivateSilent env row then 0 else 1) := by
  unfold deactivate_driver_from_row deactivateSilent
  repeat' split
  all_goals (try simp_all [logSize])
  all_goals omega

theorem rowDispatch_logSize (env : Env) (s : DMState) (row : Row) :
    logSize (rowDispatch env s row).1.log = logSize s.log +
      (if (rowDispatch env s row).2.isSome then 0
       else if rowSilent env row then 0 else 1) := by
  unfold rowDispatch rowSilent
  by_cases h1 : pyLower row.action = "create"
  · have h2 : pyLower row.action ≠ "update" := by rw [h1]; decide
    have h3 : pyLower row.action ≠ "deactivate" := by rw [h1]; decide
    rw [if_pos h1, if_neg h2, if_neg h3]
    rw [create_logSize]
    simp
  · by_cases h2 : pyLower row.action = "update"
    · rw [if_neg h1, if_pos h2, if_pos h2]
      exact update_logSize env s row
    · by_cases h3 : pyLower row.action = "deactivate"
      · rw [if_neg h1, if_neg h2, if_pos h3, if_neg h2, if_pos h3]
        exact deactivate_logSize env s row
      · rw [if_neg h1, if_neg h2, if_neg h3, if_neg h2, if_neg h3]
        simp [logSize]
        omega

theorem silent_not_raised (env : Env) (s : DMState) (row : Row) :
    rowSilent env row = true → (rowDispatch env s row).2 = none := by
  intro hsil
  unfold rowSilent at hsil
  by_cases h2 : pyLower row.action = "update"
  · rw [if_pos h2] at hsil
    have h1 : pyLower row.action ≠ "create" := by rw [h2]; decide
    unfold rowDispatch
    rw [if_neg h1, if_pos h2]
    unfold updateSilent at hsil
    unfold update_driver_from_row
    by_cases hp : row.payroll_id = ""
    · rw [if_pos hp] at hsil
      cases hsil
    · rw [if_neg hp] at hsil
      rw [if_neg hp]
      cases hfd : env.findDriver row.payroll_id with
      | error e => rw [hfd] at hsil; simp at hsil
      | ok od =>
          rw [hfd] at hsil
          cases od with
          | none => simp at hsil
          | some driver =>
              simp only at hsil
              by_cases hne : (buildUpdateData driver row).isNon_empty
              · rw [if_pos hne] at hsil; cases hsil
              · simp [hne]
  · by_cases h3 : pyLower row.action = "deactivate"
    · rw [if_neg h2, if_pos h3] at hsil
      have h1 : pyLower row.action ≠ "create" := by rw [h3]; decide
      unfold rowDispatch
      rw [if_neg h1, if_neg h2, if_pos h3]
      unfold deactivateSilent at hsil
      unfold deactivate_driver_from_row
      by_cases hp : row.payroll_id = ""
      · rw [if_pos hp] at hsil
        cases hsil
      · rw [if_neg hp] at hsil
        rw [if_neg hp]
        cases hfd : env.findDriver row.payroll_id with
        | error e => rw [hfd] at hsil; simp at hsil
        | ok od =>
            rw [hfd] at hsil
            cases od with
            | none => simp at hsil
            | some driver =>
                simp only at hsil
                by_cases hde :
                    driver.driverActivationStatus = "deactivated"
                · simp [hde]
                · rw [if_neg hde] at hsil; cases hsil
    · rw [if_neg h2, if_neg h3] at hsil
      cases hsil

/-- Environment holding one already-deactivated remote driver under
payroll id `P1`. -/
def envDeactivatedP1 : Env :=
  { findDriver := fun pid =>
      if pid = "P1" then
        Except.ok (some ⟨"d1", "Bob", [], "deactivated"⟩)
      else Except.ok none,
    createDriver := fun d => Except.ok ⟨"x", d.name, [], "active"⟩,
    updateDriver := fun _ _ => Except.ok (),
    deactivateDriver := fun _ _ => Except.ok () }

/-- A deactivate row targeting the already-deactivated `P1`. -/
def rowDeactP1 : Row :=
  ⟨"deactivate", "P1", "", "", "", "", "", "", "left company"⟩

/-- An update row for `P1` whose merged payload changes no fields. -/
def rowUpdateNoop : Row := ⟨"update", "P1", "", "", "", "", "", "", ""⟩

/-- **C1 counterexample.**  A deactivate row targeting an
already-deactivated driver, and an update row whose payload changes no
fields, each produce zero log entries — not exactly one as claimed: the
operations log is left completely unchanged. -/
theorem one_entry_per_row_counterexample :
    (processRow envDeactivatedP1 (initState []) rowDeactP1).log =
      (initState []).log ∧
    logSize (processRow envDeactivatedP1 (initState [])
      rowDeactP1).log ≠ logSize (initState []).log + 1 ∧
    (processRow envDeactivatedP1 (initState []) rowUpdateNoop).log =
      (initState []).log ∧
    logSize (processRow envDeactivatedP1 (initState [])
      rowUpdateNoop).log ≠ logSize (initState []).log + 1 := by
  decide

/-- **C1 amended.**  Every row consumed by the processing loop appends
at most one entry to the operations log: exactly one entry (in
created/updated/deactivated/errors) unless the row is a no-op update
(resolved driver, empty merged payload) or a deactivate of an
already-deactivated driver, in which case it appends none. -/
theorem log_entry_count_per_row (env : Env) (s : DMState) (row : Row) :
    logSize (processRow env s row).log =
      logSize s.log + (if rowSilent env row then 0 else 1) := by
  have hd := rowDispatch_logSize env s row
  unfold processRow
  rcases hdd : rowDispatch env s row with ⟨s1, r⟩
  rw [hdd] at hd
  cases r with
  | none => simpa using hd
  | some e =>
      have hns : rowSilent env row = false := by
        cases hcase : rowSilent env row with
        | false => rfl
        | true =>
            have := silent_not_raised env s row hcase
            rw [hdd] at this
            cases this
      simp only [Option.isSome_some, if_pos] at hd
      simp [logSize, hns] at hd ⊢
      omega

/-- A create row with an empty `name` field (as produced by
`csv.DictReader` for the row `create,P1,,dana,,,,,`). -/
def rowCreateEmptyName : Row :=
  ⟨"create", "P1", "", "dana", "", "", "", "", ""⟩

/-- **C7.**  Evaluation of `_create_driver_from_row` at a create row
whose `name` is empty: the code performs no name validation — it issues
the `create_driver` API call with `name = ""`, records a `created`
entry and no error entry.  The repository's own test
(`test_headcount_not_used_for_create`) instead expects the error
`Driver name is required for creation` and zero creation calls, so this
evaluation exhibits the failing input for the claim. -/
theorem create_empty_name_calls_api :
    (processRow envAllOk (initState []) rowCreateEmptyName).calls =
      [ApiCall.findByExternalId "payrollId" "P1",
       ApiCall.createDriver (buildDriverData rowCreateEmptyName)] ∧
    (buildDriverData rowCreateEmptyName).name = "" ∧
    (processRow envAllOk (initState []) rowCreateEmptyName).log.errors
      = [] ∧
    (processRow envAllOk (initState [])
      rowCreateEmptyName).log.created.length = 1 := by
  decide

/-! ## Headcount loader model (`headcount_loader.py`, `load_headcount_data`)

A spreadsheet cell as seen through pandas: a blank cell is NaN
(`pd.isna`), a numeric cell is a float or an int, anything else is kept
as its string form.  The guard `isinstance(pid, float) and
math.isclose(pid % 1, 0)` uses `math.isclose` with its default
`abs_tol=0.0`, so it holds exactly when the fractional part is exactly
zero; such a float is replaced by `int(pid)` before `str`.  The model
therefore splits float cells into exactly-integral ones (carrying the
integer value) and the rest (carrying their Python `str` form, which for
a non-integral float never ends in ".0"). -/

/-- The payroll-identifier cell of one spreadsheet row. -/
inductive PidCell where
  | na : PidCell
  | floatIntC : Int → PidCell
  | floatFracC : String → PidCell
  | otherC : String → PidCell
  deriving Repr, DecidableEq

/-- `str(int(pid))` for an exactly-integral float, `str(pid)`
otherwise; `none` for a NaN cell (the row is skipped). -/
def pidKey : PidCell → Option String
  | PidCell.na => none
  | PidCell.floatIntC n => some (toString n)
  | PidCell.floatFracC r => some r
  | PidCell.otherC r => some r

/-- The phone cell: NaN, a float (the source applies `int` to it — the
truncated integer value is carried), or any other value's string form. -/
inductive PhoneCell where
  | phNa : PhoneCell
  | phFloat : Int → PhoneCell
  | phStr : String → PhoneCell
  deriving Repr, DecidableEq

/-- One spreadsheet row, restricted to the discovered columns; `none`
models a NaN cell. -/
structure HCRow where
  pid : PidCell
  email : Option String
  phone : PhoneCell
  location : Option String
  firstname : Option String
  lastname : Option String
  deriving Repr, DecidableEq

/-- One record of the resulting mapping. -/
structure HCRecord where
  name : Option String
  email : Option String
  phone : Option String
  location_tag_id : Option String
  deriving Repr, DecidableEq

/-- The per-row record built by the loop body of `load_headcount_data`;
`locMap` is the loaded `locations.csv` dictionary (location name →
tag id). -/
def buildRecord (locMap : String → Option String) (r : HCRow) :
    HCRecord :=
  { name := match r.firstname, r.lastname with
      | some f, some l => some (pyStrip f ++ " " ++ pyStrip l)
      | _, _ => none,
    email := r.email.map pyStrip,
    phone := match r.phone with
      | PhoneCell.phNa => none
      | PhoneCell.phFloat n => some (toString n)
      | PhoneCell.phStr s => some (pyStrip s),
    location_tag_id := match r.location with
      | some v => locMap (pyStrip v)
      | none => none }

/-- `mapping[pid_str] = record`. -/
def hcInsert (m : String → Option HCRecord) (k : String) (v : HCRecord) :
    String → Option HCRecord :=
  fun x => if x = k then some v else m x

/-- Loop body of `load_headcount_data`: a NaN identifier skips the row,
otherwise the record is stored under the normalized key. -/
def hcStep (locMap : String → Option String)
    (m : String → Option HCRecord) (r : HCRow) :
    String → Option HCRecord :=
  match pidKey r.pid with
  | none => m
  | some k => hcInsert m k (buildRecord locMap r)

/-- `load_headcount_data` over the parsed rows (column discovery and
file reading abstracted away). -/
def load_headcount_data (locMap : String → Option String)
    (rows : List HCRow) : String → Option HCRecord :=
  rows.foldl (hcStep locMap) (fun _ => none)

set_option maxHeartbeats 1000000 in
theorem digitChar_ne_dot (n : Nat) : Nat.digitChar n ≠ '.' := by
  rcases Nat.lt_or_ge n 16 with h | h
  · interval_cases n <;> decide
  · unfold Nat.digitChar
    rw [if_neg (by omega : ¬ n = 0), if_neg (by omega : ¬ n = 1),
      if_neg (by omega : ¬ n = 2), if_neg (by omega : ¬ n = 3),
      if_neg (by omega : ¬ n = 4), if_neg (by omega : ¬ n = 5),
      if_neg (by omega : ¬ n = 6), if_neg (by omega : ¬ n = 7),
      if_neg (by omega : ¬ n = 8), if_neg (by omega : ¬ n = 9),
      if_neg (by omega : ¬ n = 10), if_neg (by omega : ¬ n = 11),
      if_neg (by omega : ¬ n = 12), if_neg (by omega : ¬ n = 13),
      if_neg (by omega : ¬ n = 14), if_neg (by omega : ¬ n = 15)]
    decide

theorem toDigitsCore_ne_dot (b fuel n : Nat) (ds : List Char)
    (hds : ∀ c ∈ ds, c ≠ '.') :
    ∀ c ∈ Nat.toDigitsCore b fuel n ds, c ≠ '.' := by
  induction fuel generalizing n ds with
  | zero => simpa [Nat.toDigitsCore] using hds
  | succ f ih =>
      intro c hc
      rw [Nat.toDigitsCore] at hc
      by_cases h0 : n / b = 0
      · rw [if_pos h0] at hc
        rcases List.mem_cons.mp hc with rfl | hc
        · exact digitChar_ne_dot _
        · exact hds c hc
      · rw [if_neg h0] at hc
        refine ih (n / b) (Nat.digitChar (n % b) :: ds) ?_ c hc
        intro x hx
        rcases List.mem_cons.mp hx with rfl | hx
        · exact digitChar_ne_dot _
        · exact hds x hx

theorem natRepr_ne_dot (m : Nat) : ∀ c ∈ (Nat.repr m).data, c ≠ '.' := by
  intro c hc
  have : c ∈ Nat.toDigits 10 m := by
    simpa [Nat.repr, List.asString] using hc
  exact toDigitsCore_ne_dot 10 (m + 1) m [] (by simp) c this

theorem intRepr_ne_dot (n : Int) : ∀ c ∈ (toString n).data, c ≠ '.' := by
  intro c hc
  cases n with
  | ofNat m =>
      exact natRepr_ne_dot m c (by simpa [toString, Int.repr] using hc)
  | negSucc m =>
      have : c ∈ ("-" ++ Nat.repr (m + 1)).data := by
        simpa [toString, Int.repr] using hc
      rw [String.data_append] at this
      rcases List.mem_append.mp this with h | h
      · simp at h
        subst h
        decide
      · exact natRepr_ne_dot (m + 1) c h

theorem hcFold_filter (locMap : String → Option String)
    (rows : List HCRow) (m : String → Option HCRecord) :
    rows.foldl (hcStep locMap) m =
      (rows.filter fun r => (pidKey r.pid).isSome).foldl
        (hcStep locMap) m := by
  induction rows generalizing m with
  | nil => rfl
  | cons r rs ih =>
      cases hp : pidKey r.pid with
      | none =>
          have hstep : hcStep locMap m r = m := by
            unfold hcStep
            rw [hp]
          simp [List.filter, hp, List.foldl, hstep, ih]
      | some k =>
          simp [List.filter, hp, List.foldl, ih]

theorem hcFold_domain (locMap : String → Option String)
    (rows : List HCRow) (m : String → Option HCRecord) (k : String) :
    (rows.foldl (hcStep locMap) m k).isSome = true ↔
      (∃ r ∈ rows, pidKey r.pid = some k) ∨ (m k).isSome = true := by
  induction rows generalizing m with
  | nil => simp
  | cons r rs ih =>
      rw [List.foldl_cons, ih]
      cases hp : pidKey r.pid with
      | none =>
          have hstep : hcStep locMap m r = m := by simp [hcStep, hp]
          rw [hstep]
          constructor
          · rintro (⟨r2, hr2, hk2⟩ | h)
            · exact Or.inl ⟨r2, List.mem_cons_of_mem r hr2, hk2⟩
            · exact Or.inr h
          · rintro (⟨r2, hr2, hk2⟩ | h)
            · rcases List.mem_cons.mp hr2 with rfl | hr2
              · rw [hp] at hk2
                cases hk2
              · exact Or.inl ⟨r2, hr2, hk2⟩
            · exact Or.inr h
      | some k2 =>
          have hstep : hcStep locMap m r =
              hcInsert m k2 (buildRecord locMap r) := by
            simp [hcStep, hp]
          rw [hstep]
          by_cases hkk : k = k2
          · subst hkk
            constructor
            · intro _
              exact Or.inl ⟨r, List.mem_cons_self r rs, hp⟩
            · intro _
              right
              simp [hcInsert]
          · have hins : hcInsert m k2 (buildRecord locMap r) k = m k := by
              simp [hcInsert, hkk]
            rw [hins]
            constructor
            · rintro (⟨r2, hr2, hk2⟩ | h)
              · exact Or.inl ⟨r2, List.mem_cons_of_mem r hr2, hk2⟩
              · exact Or.inr h
            · rintro (⟨r2, hr2, hk2⟩ | h)
              · rcases List.mem_cons.mp hr2 with rfl | hr2
                · rw [hp] at hk2
                  exact absurd (Option.some_injective _ hk2).symm hkk
                · exact Or.inl ⟨r2, hr2, hk2⟩
              · exact Or.inr h

/-- **C8.**  `load_headcount_data` produces one record per non-skipped
spreadsheet row, keyed by the string form of the payroll identifier:
(1) rows whose identifier cell is missing/blank (NaN) are skipped — the
result equals the load of the filtered row list;
(2) a key is present in the result exactly when some row bears it;
(3) the record stored under a row's key is the one built from the most
recent row bearing that key;
(4) an exactly-integral numeric identifier `n` is normalized to the
integer string `str(int(pid))`, which never carries a trailing ".0". -/
theorem headcount_loader_keys_and_normalization :
    (∀ (locMap : String → Option String) (rows : List HCRow),
      load_headcount_data locMap rows =
        load_headcount_data locMap
          (rows.filter fun r => (pidKey r.pid).isSome)) ∧
    (∀ (locMap : String → Option String) (rows : List HCRow)
        (k : String),
      ((load_headcount_data locMap rows) k).isSome = true ↔
        ∃ r ∈ rows, pidKey r.pid = some k) ∧
    (∀ (locMap : String → Option String) (rows : List HCRow)
        (r : HCRow) (k : String), pidKey r.pid = some k →
      (load_headcount_data locMap (rows ++ [r])) k =
        some (buildRecord locMap r)) ∧
    (∀ n : Int, pidKey (PidCell.floatIntC n) = some (toString n)) ∧
    (∀ n : Int, ¬ (['.', '0'] <:+ (toString n).data)) := by
  refine ⟨?_, ?_, ?_, fun n => rfl, ?_⟩
  · intro locMap rows
    exact hcFold_filter locMap rows _
  · intro locMap rows k
    rw [load_headcount_data, hcFold_domain]
    simp
  · intro locMap rows r k hk
    rw [load_headcount_data, List.foldl_append]
    simp only [List.foldl_cons, List.foldl_nil]
    unfold hcStep
    rw [hk]
    unfold hcInsert
    simp
  · intro n hsuf
    have hdot : '.' ∈ (toString n).data :=
      hsuf.subset (by simp)
    exact intRepr_ne_dot n '.' hdot rfl

/-- Witness for C8 at concrete inputs: a NaN row is skipped, the key of
an integral float cell `12.0` is "12" with no ".0" suffix, and the
stored record is the one from the last row with that key. -/
theorem headcount_loader_witness :
    pidKey (PidCell.floatIntC 12) = some "12" ∧
    (load_headcount_data (fun _ => none)
      ([⟨PidCell.na, none, PhoneCell.phNa, none, none, none⟩] ++
        [⟨PidCell.floatIntC 12, none, PhoneCell.phStr " 555 ", none,
          none, none⟩])) "12" =
      some (buildRecord (fun _ => none)
        ⟨PidCell.floatIntC 12, none, PhoneCell.phStr " 555 ", none,
          none, none⟩) ∧
    ¬ (['.', '0'] <:+ (toString (12 : Int)).data) := by
  refine ⟨by decide, ?_, ?_⟩
  · exact headcount_loader_keys_and_normalization.2.2.1 (fun _ => none)
      [⟨PidCell.na, none, PhoneCell.phNa, none, none, none⟩]
      ⟨PidCell.floatIntC 12, none, PhoneCell.phStr " 555 ", none, none,
        none⟩ "12" (by decide)
  · exact headcount_loader_keys_and_normalization.2.2.2.2 12

/-! ## Headcount-merged update path (modelled from the spec)

`main.py` calls `manager.process_driver_updates_from_csv(args.csv,
headcount_map=headcount_map)` and the test suite exercises the same
keyword, but the `DriverManager` in `src/driver_manager.py` accepts no
such parameter and contains no merge logic — the merged update variant
is code of this repository missing from `src/`, present only through
its caller and tests.  It is therefore modelled from the spec
(§4.3 Update): when a headcount lookup table is supplied and contains
the row's payroll id, the merger overlays name, email (into the
external-id namespace under "email"), phone (headcount value takes
precedence when the row's own phone is blank) and location tag (same
precedence rule) on top of the row-built payload. -/

theorem mem_appendTagIfAbsent_self (l : List String) (t : String) :
    t ∈ appendTagIfAbsent l t := by
  unfold appendTagIfAbsent
  split
  · assumption
  · simp

/-- Modelled from the spec: the merged partial-update payload of the
missing headcount-aware `_update_driver_from_row`.  Row fields win when
non-empty; a supplied headcount record contributes name, email, and —
when the corresponding row field is blank — phone and location tag; the
chosen tag is merged additively into the existing tag set. -/
def merged_update_data (hcOpt : Option HCRecord) (driver : Driver)
    (row : Row) : MergedUpdateData :=
  { name := match hcOpt with
      | some hc => hc.name
      | none => none,
    phone := if row.phone ≠ "" then some row.phone
      else match hcOpt with
        | some hc => hc.phone
        | none => none,
    licenseNumber := if row.license_number ≠ "" then
        some row.license_number else none,
    licenseState := if row.license_state ≠ "" then
        some row.license_state else none,
    externalIdsEmail := match hcOpt with
      | some hc => hc.email
      | none => none,
    tagIds := match (if row.location_tag_id ≠ "" then
        some row.location_tag_id
      else match hcOpt with
        | some hc => hc.location_tag_id
        | none => none) with
      | some t => some (appendTagIfAbsent driver.tagIds t)
      | none => none }

/-- Remote behaviour visible to the merged update path. -/
structure EnvHC where
  findDriver : String → Except String (Option Driver)
  updateDriver : String → MergedUpdateData → Except String Unit

/-- Modelled from the spec: the headcount-aware
`_update_driver_from_row` — resolve the driver by payroll id, build the
merged payload, and send it with `api.update_driver` when non-empty. -/
def update_driver_from_row_hc (env : EnvHC)
    (hcMap : String → Option HCRecord) (s : DMState) (row : Row) :
    DMState × Option String :=
  if row.payroll_id = "" then
    (s, some "Payroll ID required for updates")
  else
    match env.findDriver row.payroll_id with
    | Except.error e =>
        (addCall s (ApiCall.findByExternalId "payrollId" row.payroll_id),
          some e)
    | Except.ok none =>
        (addCall s (ApiCall.findByExternalId "payrollId" row.payroll_id),
          some ("Driver with payroll ID " ++ row.payroll_id ++
            " not found"))
    | Except.ok (some driver) =>
      if (merged_update_data (hcMap row.payroll_id) driver
          row).isNon_emptyM then
        match env.updateDriver driver.id
            (merged_update_data (hcMap row.payroll_id) driver row) with
        | Except.error e =>
            (addCall
              (addCall s (ApiCall.findByExternalId "payrollId"
                row.payroll_id))
              (ApiCall.updateDriverMerged driver.id
                (merged_update_data (hcMap row.payroll_id) driver row)),
              some e)
        | Except.ok _ =>
            (logUpdated
              (addCall
                (addCall s (ApiCall.findByExternalId "payrollId"
                  row.payroll_id))
                (ApiCall.updateDriverMerged driver.id
                  (merged_update_data (hcMap row.payroll_id) driver
                    row)))
              ⟨driver.id, driver.name, row.payroll_id, []⟩, none)
      else
        (addCall s (ApiCall.findByExternalId "payrollId" row.payroll_id),
          none)

/-- **C2.**  For an update row whose payroll id resolves to an existing
driver and is present in the supplied headcount lookup: when the row's
phone is blank and the headcount record supplies phone `p`, the
partial-update payload sent to the API carries `phone = p`; and when
the row supplies no location tag while headcount resolves tag `t`, the
payload's tag list contains `t`.  The payload is sent: the trace gains
the find call followed by the update call carrying exactly this
payload. -/
theorem headcount_merge_update_payload (env : EnvHC)
    (hcMap : String → Option HCRecord) (s : DMState) (row : Row)
    (driver : Driver) (hc : HCRecord) (p t : String)
    (hpid : row.payroll_id ≠ "")
    (hfind : env.findDriver row.payroll_id = Except.ok (some driver))
    (hhc : hcMap row.payroll_id = some hc)
    (hblank : row.phone = "")
    (hp : hc.phone = some p)
    (hrowtag : row.location_tag_id = "")
    (ht : hc.location_tag_id = some t) :
    (merged_update_data (hcMap row.payroll_id) driver row).phone =
      some p ∧
    t ∈ ((merged_update_data (hcMap row.payroll_id) driver
      row).tagIds.getD []) ∧
    (update_driver_from_row_hc env hcMap s row).1.calls = s.calls ++
      [ApiCall.findByExternalId "payrollId" row.payroll_id,
       ApiCall.updateDriverMerged driver.id
         (merged_update_data (hcMap row.payroll_id) driver row)] := by
  have hphone : (merged_update_data (hcMap row.payroll_id) driver
      row).phone = some p := by
    simp [merged_update_data, hhc, hblank, hp]
  have htags : (merged_update_data (hcMap row.payroll_id) driver
      row).tagIds = some (appendTagIfAbsent driver.tagIds t) := by
    simp [merged_update_data, hhc, hrowtag, ht]
  have hne : (merged_update_data (hcMap row.payroll_id) driver
      row).isNon_emptyM = true := by
    simp [MergedUpdateData.isNon_emptyM, hphone]
  refine ⟨hphone, ?_, ?_⟩
  · rw [htags]
    simpa using mem_appendTagIfAbsent_self driver.tagIds t
  · unfold update_driver_from_row_hc
    rw [if_neg (by simp [hpid]), hfind]
    simp only [hne, if_pos]
    rcases env.updateDriver driver.id
      (merged_update_data (hcMap row.payroll_id) driver row) with
      e | u <;> simp

/-- The headcount record the test suite supplies for payroll id `P1`. -/
def hcDana : HCRecord :=
  ⟨some "Dana Jones", some "d1@example.com", some "555", some "L1"⟩

/-- Remote behaviour for the C2 witness: `P1` resolves to a driver with
no tags; updates succeed. -/
def envHCFinds : EnvHC :=
  { findDriver := fun pid =>
      if pid = "P1" then Except.ok (some ⟨"d1", "Old Name", [], "active"⟩)
      else Except.ok none,
    updateDriver := fun _ _ => Except.ok () }

/-- The all-blank update row for `P1` from the test suite. -/
def rowUpdateP1Blank : Row := ⟨"update", "P1", "", "", "", "", "", "", ""⟩

/-- Witness for C2 at concrete inputs: the test-suite scenario — blank
update row for `P1`, headcount supplying phone `555` and tag `L1`. -/
theorem headcount_merge_update_payload_witness :
    (merged_update_data (some hcDana) ⟨"d1", "Old Name", [], "active"⟩
      rowUpdateP1Blank).phone = some "555" ∧
    "L1" ∈ ((merged_update_data (some hcDana)
      ⟨"d1", "Old Name", [], "active"⟩ rowUpdateP1Blank).tagIds.getD
        []) := by
  have h := headcount_merge_update_payload envHCFinds
    (fun pid => if pid = "P1" then some hcDana else none)
    (initState []) rowUpdateP1Blank ⟨"d1", "Old Name", [], "active"⟩
    hcDana "555" "L1" (by decide) (by rfl) (by rfl) (by decide)
    (by decide) (by decide) (by decide)
  exact ⟨h.1, h.2.1⟩

end SamsaraFleet
